import Mathlib

/-
Verification of brian2modelfitting's simulator and metric layer.

The simulator embedding follows src/brian2modelfitting/simulator.py:
Python dictionaries become association lists over `String` keys, the
brian2 `device` singleton becomes an explicit `Device` record threaded
through the standalone helpers, and Python exceptions (`KeyError`,
`AttributeError`) become an `Except SimError` result. The deterministic
effect of `Network.run` on the neuron state and on the recorded monitor
output is abstracted as an explicit `advance` function argument for the
runtime strategy, and as a device-state transition for the standalone
strategy.
-/

set_option autoImplicit false

namespace B2MF

abbrev VarName := String

/-- The value stored for one variable: an array of per-candidate values. -/
abbrev Value := List Int

/-- The state of the neurons component: variable name to value array. -/
abbrev Store := List (VarName × Value)

/-- The output recorded by the monitor during one `Network.run`. -/
abbrev Trace := List Int

/-- Errors surfaced by the simulator layer (Python exception classes). -/
inductive SimError where
  | keyError
  | attributeError
  deriving DecidableEq, Repr

/-- Lookup in an association list, as Python dict subscript access. -/
def lookupA {α : Type} : List (String × α) → String → Option α
  | [], _ => none
  | (k, v) :: rest, key => if k = key then some v else lookupA rest key

/-- Update (or insert) in an association list, as Python dict assignment. -/
def updateA {α : Type} : List (String × α) → String → α → List (String × α)
  | [], key, v => [(key, v)]
  | (k, v0) :: rest, key, v =>
      if k = key then (key, v) :: rest else (k, v0) :: updateA rest key v

theorem lookupA_updateA_self {α : Type} (l : List (String × α)) (k : String) (v : α) :
    lookupA (updateA l k v) k = some v := by
  induction l with
  | nil => simp [lookupA, updateA]
  | cons p rest ih =>
      obtain ⟨k0, v0⟩ := p
      by_cases h : k0 = k
      · simp [lookupA, updateA, h]
      · simp [lookupA, updateA, h, ih]

theorem lookupA_updateA_ne {α : Type} (l : List (String × α)) (k k2 : String) (v : α)
    (h : k ≠ k2) : lookupA (updateA l k v) k2 = lookupA l k2 := by
  induction l with
  | nil => simp [lookupA, updateA, h]
  | cons p rest ih =>
      obtain ⟨k0, v0⟩ := p
      by_cases h0 : k0 = k
      · subst h0
        simp [lookupA, updateA, h]
      · simp [lookupA, updateA, h0, ih]

theorem lookupA_mem {α : Type} (l : List (String × α)) (k : String) (v : α)
    (h : lookupA l k = some v) : (k, v) ∈ l := by
  induction l with
  | nil => simp [lookupA] at h
  | cons p rest ih =>
      obtain ⟨k0, v0⟩ := p
      by_cases h0 : k0 = k
      · subst h0
        simp [lookupA] at h
        simp [h]
      · simp [lookupA, h0] at h
        exact List.mem_cons_of_mem _ (ih h)

/-- Set several variables in a store, in order: `set_states(params)` on the
neurons group, and also the loop applying `var_init` via `__setattr__`. -/
def setMany (s : Store) (vals : List (VarName × Value)) : Store :=
  vals.foldl (fun st p => updateA st p.1 p.2) s

/-- A brian2 `Network`: named components, the current state of the component
named `neurons`, and the snapshot captured by `Network.store`. -/
structure Network where
  components : List String
  neurons : Store
  stored : Store
  deriving DecidableEq, Repr

/-- The deterministic effect of `Network.run duration`: final neuron state
and the output recorded by the monitor. -/
abbrev AdvanceFun := Store → ℚ → Store × Trace

/-- `Simulator.__init__` state shared by both strategies, for the runtime
strategy (`self.networks`, `self.var_init`). -/
structure RuntimeSimulator where
  networks : List (String × Network)
  var_init : Option (List (VarName × Value))
  deriving DecidableEq, Repr

/-- `RuntimeSimulator.__init__` via `Simulator.__init__`. -/
def RuntimeSimulator.new : RuntimeSimulator :=
  { networks := [], var_init := none }

/-- `RuntimeSimulator.initialize`: requires components named `monitor` and
`neurons` (else `KeyError`), registers the network under `name`, records
`var_init`, and captures the store-point via `network.store()`. -/
def RuntimeSimulator.initNet (sim : RuntimeSimulator) (network : Network)
    (vi : Option (List (VarName × Value))) (name : String) :
    Except SimError RuntimeSimulator :=
  if "monitor" ∈ network.components ∧ "neurons" ∈ network.components then
    Except.ok
      { networks := updateA sim.networks name { network with stored := network.neurons },
        var_init := vi }
  else
    Except.error SimError.keyError

/-- The neuron store just before `network.run` inside
`RuntimeSimulator.run`: the restored store-point, with `params` pushed by
`set_states` and `var_init` (when present) applied on top. -/
def preRunStore (network : Network) (params : List (VarName × Value))
    (vi : Option (List (VarName × Value))) : Store :=
  match vi with
  | none => setMany network.stored params
  | some v => setMany (setMany network.stored params) v

/-- `RuntimeSimulator.run`: look up the named network (`KeyError` if
unregistered), `network.restore()`, `set_states(params)`, apply `var_init`
when present, then `network.run(duration)`. Returns the updated simulator
and the monitor output of this run. `params_names` is unused, as in the
source. -/
def RuntimeSimulator.run (advance : AdvanceFun) (sim : RuntimeSimulator)
    (duration : ℚ) (params : List (VarName × Value)) (params_names : List VarName)
    (name : String) : Except SimError (RuntimeSimulator × Trace) :=
  match lookupA sim.networks name with
  | none => Except.error SimError.keyError
  | some network =>
      let r := advance (preRunStore network params sim.var_init) duration
      Except.ok
        ({ sim with
            networks := updateA sim.networks name { network with neurons := r.fst } },
         r.snd)

/-
The C++ standalone strategy. The brian2 `device` singleton becomes an
explicit record: `has_been_run` is the backend's first-run flag,
`main_queue` records the queued `set_by_array` items, `static_arrays`
are the on-disk parameter storage files keyed by identifier,
`static_count` supplies fresh static-array file names, `codegen_runs`
counts code generations (builds) and `program_runs` counts invocations
of the compiled program.
-/

/-- The brian2 standalone `device` state. -/
structure Device where
  has_been_run : Bool
  main_queue : List (String × String × String)
  static_arrays : List (String × Value)
  static_count : Nat
  codegen_runs : Nat
  program_runs : Nat
  deriving DecidableEq, Repr

/-- `device.get_array_name(variable)` for a neurons-group variable. -/
def get_array_name (varname : VarName) : String :=
  "_array_neurongroup_" ++ varname

/-- `device.static_array(array_name, value)`: records the value under a
fresh static-array file name and returns that name. -/
def Device.static_array (dev : Device) (array_name : String) (value : Value) :
    Device × String :=
  let ident := array_name ++ "_static_" ++ toString dev.static_count
  ({ dev with
      static_arrays := updateA dev.static_arrays ident value,
      static_count := dev.static_count + 1 },
   ident)

/-- `initialize_parameter(variableview, value)`: create the static array file
and queue a `set_by_array` item; returns the static array name. -/
def init_parameter (dev : Device) (varname : VarName) (value : Value) :
    Device × String :=
  let array_name := get_array_name varname
  let r := dev.static_array array_name value
  ({ r.fst with main_queue := r.fst.main_queue ++ [("set_by_array", array_name, r.snd)] },
   r.snd)

/-- `initialize_neurons(params_names, neurons, params)`: one
`initialize_parameter` per name, `KeyError` when a name is missing from
`params`; returns the dict name to static-array identifier. -/
def init_neurons (dev : Device) (params_names : List VarName)
    (params : List (VarName × Value)) :
    Except SimError (Device × List (VarName × String)) :=
  match params_names with
  | [] => Except.ok (dev, [])
  | n :: rest =>
      match lookupA params n with
      | none => Except.error SimError.keyError
      | some v =>
          let r := init_parameter dev n v
          match init_neurons r.fst rest params with
          | Except.error e => Except.error e
          | Except.ok rr => Except.ok (rr.fst, (n, r.snd) :: rr.snd)

/-- `set_parameter_value(identifier, value)`: overwrite the static-array
file contents at `identifier`. -/
def set_parameter_value (dev : Device) (identifier : String) (value : Value) :
    Device :=
  { dev with static_arrays := updateA dev.static_arrays identifier value }

/-- `set_states(init_dict, values)`: write each value into the file named
by `init_dict[obj_name]` (`KeyError` when the name is not in the dict). -/
def set_states (dev : Device) (init_dict : List (VarName × String))
    (values : List (VarName × Value)) : Except SimError Device :=
  match values with
  | [] => Except.ok dev
  | (n, v) :: rest =>
      match lookupA init_dict n with
      | none => Except.error SimError.keyError
      | some ident => set_states (set_parameter_value dev ident v) init_dict rest

/-- `run_again()`: re-invoke the already generated program. -/
def run_again (dev : Device) : Device :=
  { dev with program_runs := dev.program_runs + 1 }

/-- `network.run(duration)` under the standalone device: performs code
generation, runs the program once and flips `has_been_run`. -/
def standaloneNetworkRun (dev : Device) : Device :=
  { dev with
      has_been_run := true,
      codegen_runs := dev.codegen_runs + 1,
      program_runs := dev.program_runs + 1 }

/-- `CPPStandaloneSimulator` state: the shared `Simulator.__init__` fields
plus `params_init`, an attribute that exists only after the first-run
branch of `run` assigned it (`none` models the absent attribute). -/
structure CPPStandaloneSimulator where
  networks : List (String × Network)
  var_init : Option (List (VarName × Value))
  params_init : Option (List (VarName × String))
  deriving DecidableEq, Repr

/-- `CPPStandaloneSimulator.__init__` via `Simulator.__init__`; the
`params_init` attribute does not exist yet. -/
def CPPStandaloneSimulator.new : CPPStandaloneSimulator :=
  { networks := [], var_init := none, params_init := none }

/-- `CPPStandaloneSimulator.initialize`: same validation and registration
as the runtime strategy, but no snapshot is taken. -/
def CPPStandaloneSimulator.initNet (sim : CPPStandaloneSimulator)
    (network : Network) (vi : Option (List (VarName × Value))) (name : String) :
    Except SimError CPPStandaloneSimulator :=
  if "monitor" ∈ network.components ∧ "neurons" ∈ network.components then
    Except.ok
      { sim with
          networks := updateA sim.networks name network,
          var_init := vi }
  else
    Except.error SimError.keyError

/-- `CPPStandaloneSimulator.run`: when `device.has_been_run` is false,
initialize the parameters through static arrays, apply `var_init`, and run
the network (code generation); otherwise overwrite only the parameter
storage files recorded in `self.params_init` (an `AttributeError` when that
attribute was never assigned) and re-invoke the compiled program. -/
def CPPStandaloneSimulator.run (dev : Device) (sim : CPPStandaloneSimulator)
    (duration : ℚ) (params : List (VarName × Value)) (params_names : List VarName)
    (name : String) : Except SimError (Device × CPPStandaloneSimulator) :=
  match lookupA sim.networks name with
  | none => Except.error SimError.keyError
  | some network =>
      if dev.has_been_run = false then
        match init_neurons dev params_names params with
        | Except.error e => Except.error e
        | Except.ok r =>
            let network1 : Network :=
              match sim.var_init with
              | none => network
              | some vi => { network with neurons := setMany network.neurons vi }
            Except.ok
              (standaloneNetworkRun r.fst,
               { sim with
                   params_init := some r.snd,
                   networks := updateA sim.networks name network1 })
      else
        match sim.params_init with
        | none => Except.error SimError.attributeError
        | some pinit =>
            match set_states dev pinit params with
            | Except.error e => Except.error e
            | Except.ok dev1 => Except.ok (run_again dev1, sim)

/-
The metric layer. The module defining `firing_rate`, `get_gamma_factor`,
`MSEMetric` and `GammaFactor` is not part of the available sources (only
its test suite is), so the definitions below are modelled from the spec,
with exact rational arithmetic in place of floating point; times are in
the same (milli)second unit throughout.
-/

/-- Modelled from the spec: the metric module's `firing_rate` is missing
from the sources; the rate of an event sequence is (event count minus one)
divided by the span between its first and last event, undefined (guarded
boundary case) for fewer than two events. -/
def firing_rate (spikes : List ℚ) : Option ℚ :=
  if spikes.length < 2 then none
  else some (((spikes.length : ℚ) - 1) / (spikes.getLastD 0 - spikes.headD 0))

/-- Round to the nearest integer (`numpy.rint`; the half-integer tie case
never arises on the inputs considered here). -/
def rint (q : ℚ) : ℤ :=
  Int.floor (q + 1 / 2)

/-- Midpoints of consecutive discretized event times: the bin edges used
to match each target event to its nearest source event. -/
def midpoints : List ℤ → List ℚ
  | a :: b :: rest => ((a : ℚ) + (b : ℚ)) / 2 :: midpoints (b :: rest)
  | _ => []

/-- Index of the bin an event falls into: the number of bin edges at or
below it (`numpy.digitize` against ascending edges). -/
def digitizeCount (bins : List ℚ) (x : ℚ) : Nat :=
  (bins.filter (fun b => decide (b ≤ x))).length

/-- Modelled from the spec: the coincidence count inside the missing
`get_gamma_factor` — each target event is matched against its nearest
source event (via midpoint bins) and counted when the offset is within
the discretized coincidence window; with fewer than two source events,
a target event is counted when some source event lies within the window. -/
def coincCount (model data : List ℤ) (delta_diff : ℤ) : Nat :=
  if 1 < model.length then
    let bins := midpoints model
    (data.filter (fun t =>
        decide (|t - model.getD (digitizeCount bins (t : ℚ)) 0| ≤ delta_diff))).length
  else
    (data.filter (fun t => model.any (fun m => decide (|m - t| ≤ delta_diff)))).length

/-- Modelled from the spec: the metric module's `get_gamma_factor` is
missing from the sources. Event times are discretized by `dt`,
coincidences within the window `delta` are counted, the count is
normalized by the expected chance coincidences and the combined event
counts (rates taken as event count over `time`), and the returned
distance is twice the absolute difference between the relative
rate mismatch and the normalized coincidence factor — the normalization
reproducing the literal reference values of the test suite
(self-comparison gives 2, not 0). -/
def get_gamma_factor (model data : List ℚ) (delta time dt : ℚ) : ℚ :=
  let modeli := model.map (fun t => rint (t / dt))
  let datai := data.map (fun t => rint (t / dt))
  let delta_diff := rint (delta / dt)
  let model_length : ℚ := (model.length : ℚ)
  let data_length : ℚ := (data.length : ℚ)
  let data_rate := data_length / time
  let model_rate := model_length / time
  let coincidences : ℚ := (coincCount modeli datai delta_diff : ℚ)
  let ncoincavg := 2 * delta * data_length * data_rate
  let norm := (1 - 2 * data_rate * delta) / 2
  let gamma := (coincidences - ncoincavg) / (norm * (model_length + data_length))
  2 * |(data_rate - model_rate) / data_rate - gamma|

/-- Modelled from the spec: one feature of the missing continuous-signal
metric — the mean squared difference between a simulated and a target
series, restricted to samples at or after the start index. -/
def mseFeature (simulated target : List ℚ) (startIdx : Nat) : ℚ :=
  let sq := List.zipWith (fun a b => (a - b) ^ 2)
    (simulated.drop startIdx) (target.drop startIdx)
  sq.sum / (sq.length : ℚ)

/-- Modelled from the spec: the missing continuous-signal metric's
`compute_features` — simulated rows hold `n_channels * n_candidates`
series with candidates grouped contiguously per channel, target rows hold
one series per channel; the result is the feature matrix of shape
(n_channels, n_candidates), restricted to samples at or after `t_start`
converted to a sample index via `dt`. -/
def mse_get_features (simulated target : List (List ℚ)) (n_channels : Nat)
    (dt t_start : ℚ) : List (List ℚ) :=
  let n_candidates := simulated.length / n_channels
  let startIdx := (Int.floor (t_start / dt)).toNat
  (List.range n_channels).map (fun c =>
    (List.range n_candidates).map (fun j =>
      mseFeature (simulated.getD (c * n_candidates + j) [])
        (target.getD c []) startIdx))

/-- A physical quantity: a magnitude together with the exponent of the
time dimension (0 for a bare number, 1 for a time). -/
structure Quantity where
  val : ℚ
  timeDim : ℤ
  deriving DecidableEq, Repr

/-- Configuration errors of the event-train metric constructor: a missing
required argument (Python `TypeError`) or a quantity of the wrong
dimension (`DimensionMismatchError`). -/
inductive MetricConfigError where
  | missingArgument
  | dimensionMismatch
  deriving DecidableEq, Repr

/-- The configured event-train metric engine. -/
structure GammaFactorMetric where
  delta : Quantity
  time : Quantity
  deriving DecidableEq, Repr

/-- Modelled from the spec: construction-time validation of the missing
`GammaFactor` engine — any supplied argument lacking the time dimension
is a dimension mismatch, a missing argument is a configuration error, and
construction succeeds exactly when both `delta` and `time` are supplied
carrying the time dimension. -/
def GammaFactorMetric.construct (delta time : Option Quantity) :
    Except MetricConfigError GammaFactorMetric :=
  match delta, time with
  | some d, some t =>
      if d.timeDim = 1 ∧ t.timeDim = 1 then Except.ok ⟨d, t⟩
      else Except.error MetricConfigError.dimensionMismatch
  | some d, none =>
      if d.timeDim = 1 then Except.error MetricConfigError.missingArgument
      else Except.error MetricConfigError.dimensionMismatch
  | none, some t =>
      if t.timeDim = 1 then Except.error MetricConfigError.missingArgument
      else Except.error MetricConfigError.dimensionMismatch
  | none, none => Except.error MetricConfigError.missingArgument

/- Concrete fixtures used to instantiate the theorems on explicit inputs. -/

/-- A well-formed network: both required components, one variable `v`. -/
def exNet : Network :=
  { components := ["monitor", "neurons"], neurons := [("v", [0])], stored := [("v", [0])] }

/-- A second well-formed network with a different variable. -/
def exNet2 : Network :=
  { components := ["monitor", "neurons"], neurons := [("u", [3])], stored := [("u", [3])] }

/-- A network missing the `monitor` component. -/
def exNetBad : Network :=
  { components := ["neurons"], neurons := [], stored := [] }

/-- A concrete deterministic advance: the state is unchanged and the
monitor records the batch width of each variable. -/
def exAdvance : AdvanceFun := fun s _ => (s, s.map (fun p => (p.2.length : Int)))

/-- A runtime simulator with `exNet` registered under `fit` and a
variable initialization for `v`. -/
def exSim0 : RuntimeSimulator :=
  { networks := [("fit", exNet)], var_init := some [("v", [7])] }

/-- The simulator state after one `exAdvance` run of `exSim0` with
parameter `w := [5]`. -/
def exSim1 : RuntimeSimulator :=
  { networks := [("fit",
      { components := ["monitor", "neurons"],
        neurons := [("v", [7]), ("w", [5])], stored := [("v", [0])] })],
    var_init := some [("v", [7])] }

/-- A fresh standalone device: nothing generated or run yet. -/
def exDev0 : Device :=
  { has_been_run := false, main_queue := [], static_arrays := [],
    static_count := 0, codegen_runs := 0, program_runs := 0 }

/-- A standalone simulator with `exNet` registered and no first run yet. -/
def exCSim0 : CPPStandaloneSimulator :=
  { networks := [("fit", exNet)], var_init := none, params_init := none }

/-- The device after the first standalone run with parameter `a := [1]`. -/
def exDev1 : Device :=
  { has_been_run := true,
    main_queue := [("set_by_array", "_array_neurongroup_a", "_array_neurongroup_a_static_0")],
    static_arrays := [("_array_neurongroup_a_static_0", [1])],
    static_count := 1, codegen_runs := 1, program_runs := 1 }

/-- The standalone simulator after the first run: `params_init` now holds
the static-array identifier for `a`. -/
def exCSim1 : CPPStandaloneSimulator :=
  { networks := [("fit", exNet)], var_init := none,
    params_init := some [("a", "_array_neurongroup_a_static_0")] }

/-- The device after a parameter-only re-run with `a := [2]`. -/
def exDev2 : Device :=
  { has_been_run := true,
    main_queue := [("set_by_array", "_array_neurongroup_a", "_array_neurongroup_a_static_0")],
    static_arrays := [("_array_neurongroup_a_static_0", [2])],
    static_count := 1, codegen_runs := 1, program_runs := 2 }

/- ## Helper lemmas -/

theorem init_neurons_device_fields (params_names : List VarName) :
    ∀ (dev dev' : Device) (params : List (VarName × Value))
      (d : List (VarName × String)),
    init_neurons dev params_names params = Except.ok (dev', d) →
    dev'.has_been_run = dev.has_been_run ∧
    dev'.codegen_runs = dev.codegen_runs ∧
    dev'.program_runs = dev.program_runs := by
  induction params_names with
  | nil =>
      intro dev dev' params d h
      simp only [init_neurons, Except.ok.injEq, Prod.mk.injEq] at h
      obtain ⟨h1, -⟩ := h
      subst h1
      exact ⟨rfl, rfl, rfl⟩
  | cons n rest ih =>
      intro dev dev' params d h
      simp only [init_neurons] at h
      cases hp : lookupA params n with
      | none => simp only [hp] at h; simp at h
      | some v =>
          simp only [hp] at h
          cases hr : init_neurons (init_parameter dev n v).fst rest params with
          | error e => simp only [hr] at h; simp at h
          | ok rr =>
              simp only [hr, Except.ok.injEq, Prod.mk.injEq] at h
              obtain ⟨h1, -⟩ := h
              subst h1
              exact ih (init_parameter dev n v).fst rr.fst params rr.snd hr

theorem set_states_device_fields (init_dict : List (VarName × String)) :
    ∀ (values : List (VarName × Value)) (dev dev' : Device),
    set_states dev init_dict values = Except.ok dev' →
    dev'.has_been_run = dev.has_been_run ∧
    dev'.codegen_runs = dev.codegen_runs ∧
    dev'.program_runs = dev.program_runs ∧
    ∀ ident, (∀ p ∈ init_dict, p.snd ≠ ident) →
      lookupA dev'.static_arrays ident = lookupA dev.static_arrays ident := by
  intro values
  induction values with
  | nil =>
      intro dev dev' h
      simp only [set_states, Except.ok.injEq] at h
      subst h
      exact ⟨rfl, rfl, rfl, fun _ _ => rfl⟩
  | cons p rest ih =>
      intro dev dev' h
      obtain ⟨n, v⟩ := p
      simp only [set_states] at h
      cases hid : lookupA init_dict n with
      | none => simp only [hid] at h; simp at h
      | some ident0 =>
          simp only [hid] at h
          have hr := ih _ _ h
          refine ⟨hr.1, hr.2.1, hr.2.2.1, ?_⟩
          intro ident hni
          rw [hr.2.2.2 ident hni]
          have hne : ident0 ≠ ident := hni (n, ident0) (lookupA_mem _ _ _ hid)
          exact lookupA_updateA_ne _ _ _ _ hne

/- ## Claim theorems -/

/-- C1: for every network registered with the interpreted-strategy
executor, two successive `run` calls with the same duration, params,
params_names and name produce identical output traces: each run restores
the stored snapshot, sets params, applies var_init and advances, so the
second run starts from the same store-point state as the first. -/
theorem C1_runtime_rerun_deterministic (advance : AdvanceFun)
    (sim sim1 sim2 : RuntimeSimulator) (duration : ℚ)
    (params : List (VarName × Value)) (params_names : List VarName)
    (name : String) (trace1 trace2 : Trace)
    (h1 : RuntimeSimulator.run advance sim duration params params_names name =
      Except.ok (sim1, trace1))
    (h2 : RuntimeSimulator.run advance sim1 duration params params_names name =
      Except.ok (sim2, trace2)) :
    trace1 = trace2 := by
  cases hl : lookupA sim.networks name with
  | none => simp [RuntimeSimulator.run, hl] at h1
  | some network =>
      simp only [RuntimeSimulator.run, hl, Except.ok.injEq, Prod.mk.injEq] at h1
      obtain ⟨hs1, ht1⟩ := h1
      subst hs1
      simp only [RuntimeSimulator.run, lookupA_updateA_self, Except.ok.injEq,
        Prod.mk.injEq] at h2
      obtain ⟨hs2, ht2⟩ := h2
      rw [← ht1, ← ht2]
      rfl

/-- C1 witness: concrete double run with identical arguments. -/
theorem C1_runtime_rerun_deterministic_witness : ([1, 1] : Trace) = [1, 1] :=
  C1_runtime_rerun_deterministic exAdvance exSim0 exSim1 exSim1 2
    [("w", [5])] [] "fit" [1, 1] [1, 1] rfl rfl

/-- C4: for both strategies, `initialize` fails with the structural
`KeyError` exactly when the network lacks a `monitor` or a `neurons`
component, before any run is attempted (a name that was never registered
cannot be run at all); when both are present the network is registered
under the given name. -/
theorem C4_initNet_validation (sim : RuntimeSimulator)
    (csim : CPPStandaloneSimulator) (network : Network)
    (vi : Option (List (VarName × Value))) (name : String) :
    (¬("monitor" ∈ network.components ∧ "neurons" ∈ network.components) →
       sim.initNet network vi name = Except.error SimError.keyError ∧
       csim.initNet network vi name = Except.error SimError.keyError) ∧
    (("monitor" ∈ network.components ∧ "neurons" ∈ network.components) →
       (∃ sim2, sim.initNet network vi name = Except.ok sim2 ∧
          lookupA sim2.networks name = some { network with stored := network.neurons }) ∧
       (∃ csim2, csim.initNet network vi name = Except.ok csim2 ∧
          lookupA csim2.networks name = some network)) ∧
    (lookupA sim.networks name = none →
       ∀ advance duration params pn,
         sim.run advance duration params pn name = Except.error SimError.keyError) ∧
    (lookupA csim.networks name = none →
       ∀ dev duration params pn,
         csim.run dev duration params pn name = Except.error SimError.keyError) := by
  refine ⟨?_, ?_, ?_, ?_⟩
  · intro hc
    constructor <;> simp [RuntimeSimulator.initNet, CPPStandaloneSimulator.initNet, hc]
  · intro hc
    constructor
    · refine ⟨RuntimeSimulator.mk (updateA sim.networks name
          (Network.mk network.components network.neurons network.neurons)) vi, ?_, ?_⟩
      · simp [RuntimeSimulator.initNet, hc]
      · exact lookupA_updateA_self _ _ _
    · refine ⟨CPPStandaloneSimulator.mk (updateA csim.networks name network) vi
          csim.params_init, ?_, ?_⟩
      · simp [CPPStandaloneSimulator.initNet, hc]
      · exact lookupA_updateA_self _ _ _
  · intro hnone advance duration params pn
    simp [RuntimeSimulator.run, hnone]
  · intro hnone dev duration params pn
    simp [CPPStandaloneSimulator.run, hnone]

/-- C4 witness: a network without a `monitor` component is rejected by
the runtime strategy's `initialize` at a concrete input. -/
theorem C4_initNet_validation_witness :
    RuntimeSimulator.new.initNet exNetBad none "fit" =
      Except.error SimError.keyError :=
  ((C4_initNet_validation RuntimeSimulator.new CPPStandaloneSimulator.new
      exNetBad none "fit").1 (by decide)).1

/-- C9: a `Simulator` keeps a single `var_init` shared across all
registered names; after registering a second network under a different
name, the stored `var_init` is the second one, and a run on the first
name applies the second network's `var_init` on top of the first
network's store-point. -/
theorem C9_var_init_shared (sim sim1 sim2 : RuntimeSimulator)
    (net1 net2 : Network) (v1 v2 : List (VarName × Value))
    (name1 name2 : String) (hne : name1 ≠ name2)
    (h1 : sim.initNet net1 (some v1) name1 = Except.ok sim1)
    (h2 : sim1.initNet net2 (some v2) name2 = Except.ok sim2)
    (advance : AdvanceFun) (duration : ℚ)
    (params : List (VarName × Value)) (pn : List VarName) :
    sim2.var_init = some v2 ∧
    (sim2.run advance duration params pn name1).map Prod.snd =
      Except.ok ((advance (setMany (setMany net1.neurons params) v2) duration).snd) := by
  by_cases hc1 : ("monitor" ∈ net1.components ∧ "neurons" ∈ net1.components)
  · by_cases hc2 : ("monitor" ∈ net2.components ∧ "neurons" ∈ net2.components)
    · unfold RuntimeSimulator.initNet at h1 h2
      rw [if_pos hc1] at h1
      rw [if_pos hc2] at h2
      injection h1 with h1
      injection h2 with h2
      subst h1
      subst h2
      refine ⟨rfl, ?_⟩
      have hl : lookupA
          (updateA (updateA sim.networks name1 { net1 with stored := net1.neurons })
            name2 { net2 with stored := net2.neurons }) name1 =
          some { net1 with stored := net1.neurons } := by
        rw [lookupA_updateA_ne _ _ _ _ (fun h => hne h.symm), lookupA_updateA_self]
      simp [RuntimeSimulator.run, hl, preRunStore, Except.map]
    · simp [RuntimeSimulator.initNet, hc2] at h2
  · simp [RuntimeSimulator.initNet, hc1] at h1

/-- C9 witness: concrete second `initialize` under a different name,
then a run on the first name. -/
theorem C9_var_init_shared_witness :
    ({ networks := [("a", exNet), ("b", exNet2)],
       var_init := some [("u", [4])] } : RuntimeSimulator).var_init = some [("u", [4])] :=
  (C9_var_init_shared RuntimeSimulator.new
    { networks := [("a", exNet)], var_init := some [("v", [9])] }
    { networks := [("a", exNet), ("b", exNet2)], var_init := some [("u", [4])] }
    exNet exNet2 [("v", [9])] [("u", [4])] "a" "b" (by decide)
    rfl rfl exAdvance 1 [] []).1

/-- C2: for the compiled-strategy executor, a run while the backend's
first-run flag is unset performs parameter initialization plus code
generation and leaves the flag set; every successful run with the flag
already set performs no code generation and only re-invokes the
already-generated program. A successful run always leaves the flag set,
so the transition happens exactly once and is irreversible. -/
theorem C2_standalone_single_codegen (dev dev' : Device)
    (sim sim' : CPPStandaloneSimulator) (duration : ℚ)
    (params : List (VarName × Value)) (pn : List VarName) (name : String)
    (h : CPPStandaloneSimulator.run dev sim duration params pn name =
      Except.ok (dev', sim')) :
    dev'.has_been_run = true ∧
    (dev.has_been_run = false →
       dev'.codegen_runs = dev.codegen_runs + 1 ∧ sim'.params_init.isSome = true) ∧
    (dev.has_been_run = true →
       dev'.codegen_runs = dev.codegen_runs ∧
       dev'.program_runs = dev.program_runs + 1) := by
  cases hl : lookupA sim.networks name with
  | none => simp [CPPStandaloneSimulator.run, hl] at h
  | some network =>
      simp only [CPPStandaloneSimulator.run, hl] at h
      cases hbr : dev.has_been_run with
      | false =>
          rw [hbr] at h
          rw [if_pos rfl] at h
          cases hin : init_neurons dev pn params with
          | error e => simp only [hin] at h; simp at h
          | ok r =>
              simp only [hin, Except.ok.injEq, Prod.mk.injEq] at h
              obtain ⟨hdev, hsim⟩ := h
              subst hdev
              subst hsim
              have hf := init_neurons_device_fields pn dev r.fst params r.snd hin
              refine ⟨rfl, fun _ => ⟨?_, rfl⟩, fun hx => by simp [hbr] at hx⟩
              show r.fst.codegen_runs + 1 = dev.codegen_runs + 1
              rw [hf.2.1]
      | true =>
          rw [hbr] at h
          rw [if_neg (by simp)] at h
          cases hpi : sim.params_init with
          | none => simp only [hpi] at h; simp at h
          | some pinit =>
              simp only [hpi] at h
              cases hss : set_states dev pinit params with
              | error e => simp only [hss] at h; simp at h
              | ok dev1 =>
                  simp only [hss, Except.ok.injEq, Prod.mk.injEq] at h
                  obtain ⟨hdev, hsim⟩ := h
                  subst hdev
                  subst hsim
                  have hf := set_states_device_fields pinit params dev dev1 hss
                  refine ⟨?_, fun hx => by simp [hbr] at hx, fun _ => ⟨?_, ?_⟩⟩
                  · show dev1.has_been_run = true
                    rw [hf.1, hbr]
                  · show dev1.codegen_runs = dev.codegen_runs
                    exact hf.2.1
                  · show dev1.program_runs + 1 = dev.program_runs + 1
                    rw [hf.2.2.1]

/-- C2 witness: a concrete first run compiles, sets the flag and records
the parameter identifiers. -/
theorem C2_standalone_single_codegen_witness :
    exDev1.has_been_run = true ∧ exDev1.codegen_runs = exDev0.codegen_runs + 1 :=
  ⟨(C2_standalone_single_codegen exDev0 exDev1 exCSim0 exCSim1 1
      [("a", [1])] ["a"] "fit" rfl).1,
   ((C2_standalone_single_codegen exDev0 exDev1 exCSim0 exCSim1 1
      [("a", [1])] ["a"] "fit" rfl).2.1 rfl).1⟩

/-- C3: on the compiled strategy's already-compiled path, `var_init` is
not re-applied: the simulator (and with it every registered network's
state-variable contents) is returned unchanged, only the static-array
storage locations recorded in `params_init` may change, and the program
is re-invoked without code generation. The interpreted strategy, by
contrast, applies `var_init` on top of the restored store-point on every
run. -/
theorem C3_standalone_no_var_init_on_rerun (dev dev' : Device)
    (sim sim' : CPPStandaloneSimulator) (duration : ℚ)
    (params : List (VarName × Value)) (pn : List VarName) (name : String)
    (hbr : dev.has_been_run = true)
    (h : CPPStandaloneSimulator.run dev sim duration params pn name =
      Except.ok (dev', sim')) :
    sim' = sim ∧
    dev'.codegen_runs = dev.codegen_runs ∧
    dev'.program_runs = dev.program_runs + 1 ∧
    (∃ pinit, sim.params_init = some pinit ∧
       ∀ ident, (∀ p ∈ pinit, p.snd ≠ ident) →
         lookupA dev'.static_arrays ident = lookupA dev.static_arrays ident) ∧
    (∀ (advance : AdvanceFun) (rsim rsim2 : RuntimeSimulator)
       (network : Network) (vi : List (VarName × Value)) (trace : Trace),
       rsim.var_init = some vi →
       lookupA rsim.networks name = some network →
       RuntimeSimulator.run advance rsim duration params pn name =
         Except.ok (rsim2, trace) →
       trace = (advance (setMany (setMany network.stored params) vi) duration).snd) := by
  cases hl : lookupA sim.networks name with
  | none => simp [CPPStandaloneSimulator.run, hl] at h
  | some network =>
      simp only [CPPStandaloneSimulator.run, hl] at h
      rw [hbr] at h
      rw [if_neg (by simp)] at h
      cases hpi : sim.params_init with
      | none => simp only [hpi] at h; simp at h
      | some pinit =>
          simp only [hpi] at h
          cases hss : set_states dev pinit params with
          | error e => simp only [hss] at h; simp at h
          | ok dev1 =>
              simp only [hss, Except.ok.injEq, Prod.mk.injEq] at h
              obtain ⟨hdev, hsim⟩ := h
              subst hdev
              subst hsim
              have hf := set_states_device_fields pinit params dev dev1 hss
              refine ⟨rfl, hf.2.1, ?_, ⟨pinit, rfl, hf.2.2.2⟩, ?_⟩
              · show dev1.program_runs + 1 = dev.program_runs + 1
                rw [hf.2.2.1]
              · intro advance rsim rsim2 network2 vi trace hvi hlook hrun
                simp only [RuntimeSimulator.run, hlook, Except.ok.injEq,
                  Prod.mk.injEq] at hrun
                rw [← hrun.2, hvi]
                rfl

/-- C3 witness: a concrete parameter-only re-run leaves the simulator
unchanged and re-invokes the program once. -/
theorem C3_standalone_no_var_init_on_rerun_witness :
    exDev2.program_runs = exDev1.program_runs + 1 :=
  (C3_standalone_no_var_init_on_rerun exDev1 exDev2 exCSim1 exCSim1 1
    [("a", [2])] ["a"] "fit" rfl rfl).2.2.1

/-- C10: `params_init` is only ever assigned inside the first-run branch
of the compiled strategy's `run` — `initialize` never touches it — so a
`run` call that takes the re-run branch on a simulator whose first-run
branch never executed fails with the attribute-lookup error. -/
theorem C10_params_init_attribute_error :
    (∀ (sim sim' : CPPStandaloneSimulator) (network : Network)
       (vi : Option (List (VarName × Value))) (name : String),
       sim.initNet network vi name = Except.ok sim' →
       sim'.params_init = sim.params_init) ∧
    (∀ (dev : Device) (sim : CPPStandaloneSimulator) (duration : ℚ)
       (params : List (VarName × Value)) (pn : List VarName) (name : String),
       dev.has_been_run = true → sim.params_init = none →
       (lookupA sim.networks name).isSome = true →
       CPPStandaloneSimulator.run dev sim duration params pn name =
         Except.error SimError.attributeError) := by
  constructor
  · intro sim sim' network vi name h
    by_cases hc : ("monitor" ∈ network.components ∧ "neurons" ∈ network.components)
    · unfold CPPStandaloneSimulator.initNet at h
      rw [if_pos hc] at h
      injection h with h
      subst h
      rfl
    · simp [CPPStandaloneSimulator.initNet, hc] at h
  · intro dev sim duration params pn name hbr hpi hsome
    cases hl : lookupA sim.networks name with
    | none => rw [hl] at hsome; simp at hsome
    | some network =>
        simp only [CPPStandaloneSimulator.run, hl]
        rw [hbr]
        rw [if_neg (by simp)]
        rw [hpi]

/-- C10 witness: concrete call with the flag set but `params_init` never
assigned. -/
theorem C10_params_init_attribute_error_witness :
    CPPStandaloneSimulator.run exDev1 exCSim0 1 [] [] "fit" =
      Except.error SimError.attributeError :=
  C10_params_init_attribute_error.2 exDev1 exCSim0 1 [] [] "fit" rfl rfl rfl

theorem zipWith_sub_sq_self_sum (l : List ℚ) :
    (List.zipWith (fun a b => (a - b) ^ 2) l l).sum = 0 := by
  induction l with
  | nil => rfl
  | cons a rest ih => simp [ih]

theorem mseFeature_self (l : List ℚ) (k : Nat) : mseFeature l l k = 0 := by
  simp [mseFeature, zipWith_sub_sq_self_sum]

/-- C5: the event-train pairwise distance of an event sequence against
itself, for target events 0,2,4,6,8 with window = total time = 12 and
dt = 0.1, is exactly 2 — self-comparison does not yield zero distance
under this normalization. -/
theorem C5_gamma_self_comparison_two :
    get_gamma_factor [0, 2, 4, 6, 8] [0, 2, 4, 6, 8] 12 12 (1 / 10) = 2 ∧
    get_gamma_factor [0, 2, 4, 6, 8] [0, 2, 4, 6, 8] 12 12 (1 / 10) ≠ 0 := by
  have h : get_gamma_factor [0, 2, 4, 6, 8] [0, 2, 4, 6, 8] 12 12 (1 / 10) = 2 := by
    norm_num [get_gamma_factor, coincCount, midpoints, digitizeCount, rint]
  refine ⟨h, ?_⟩
  rw [h]
  norm_num

/-- C6: the continuous-signal metric's feature computation on elementwise
equal simulated and target data is exactly the zero matrix of shape
(n_channels, n_candidates). -/
theorem C6_mse_self_zero (X : List (List ℚ)) (n_channels : Nat) (dt : ℚ)
    (hn : 0 < n_channels) (hX : X.length = n_channels) :
    mse_get_features X X n_channels dt 0 = List.replicate n_channels [0] := by
  unfold mse_get_features
  rw [hX, Nat.div_self hn]
  refine List.eq_replicate_iff.mpr ⟨by simp, ?_⟩
  intro row hrow
  simp only [List.mem_map, List.mem_range] at hrow
  obtain ⟨c, -, rfl⟩ := hrow
  simp [List.range_succ, mseFeature_self]

/-- C6 witness: a concrete self-comparison yields the zero matrix. -/
theorem C6_mse_self_zero_witness :
    mse_get_features [[1, 2], [3, 4]] [[1, 2], [3, 4]] 2 (1 / 10) 0 =
      List.replicate 2 [0] :=
  C6_mse_self_zero [[1, 2], [3, 4]] 2 (1 / 10) (by decide) rfl

/-- C7: the firing rate of an event sequence with at least two events is
(event count minus one) divided by the span between first and last event;
in particular it is 1 on [1,2,3] and 5 on [1,1.2,1.4,1.6,1.8]. -/
theorem C7_firing_rate_formula (es : List ℚ) (h2 : 2 ≤ es.length) :
    firing_rate es =
      some (((es.length : ℚ) - 1) / (es.getLastD 0 - es.headD 0)) ∧
    firing_rate [1, 2, 3] = some 1 ∧
    firing_rate [1, 1.2, 1.4, 1.6, 1.8] = some 5 := by
  refine ⟨?_, by norm_num [firing_rate], by norm_num [firing_rate]⟩
  unfold firing_rate
  rw [if_neg (by omega)]

/-- C7 witness: the formula instantiated on a sequence with two or more
events. -/
theorem C7_firing_rate_formula_witness : firing_rate [1, 2, 3] = some 1 :=
  (C7_firing_rate_formula [1, 2, 3] (by decide)).2.1

/-- C8: constructing the event-train metric engine without both a
coincidence window and a total time, or with either given as a quantity
lacking the time dimension, fails at construction time; construction with
both arguments carrying time units succeeds. -/
theorem C8_gamma_construction_validation (d t : Quantity)
    (hd : d.timeDim = 1) (ht : t.timeDim = 1) :
    (∀ x : Option Quantity,
        (∃ e, GammaFactorMetric.construct none x = Except.error e) ∧
        (∃ e, GammaFactorMetric.construct x none = Except.error e)) ∧
    (∀ (q : Quantity) (x : Option Quantity), q.timeDim ≠ 1 →
        (∃ e, GammaFactorMetric.construct (some q) x = Except.error e) ∧
        (∃ e, GammaFactorMetric.construct x (some q) = Except.error e)) ∧
    GammaFactorMetric.construct (some d) (some t) = Except.ok ⟨d, t⟩ := by
  refine ⟨?_, ?_, ?_⟩
  · intro x
    constructor
    · cases x with
      | none => exact ⟨_, rfl⟩
      | some q =>
          unfold GammaFactorMetric.construct
          dsimp only
          by_cases hq : q.timeDim = 1
          · rw [if_pos hq]; exact ⟨_, rfl⟩
          · rw [if_neg hq]; exact ⟨_, rfl⟩
    · cases x with
      | none => exact ⟨_, rfl⟩
      | some q =>
          unfold GammaFactorMetric.construct
          dsimp only
          by_cases hq : q.timeDim = 1
          · rw [if_pos hq]; exact ⟨_, rfl⟩
          · rw [if_neg hq]; exact ⟨_, rfl⟩
  · intro q x hq
    constructor
    · cases x with
      | none =>
          unfold GammaFactorMetric.construct
          dsimp only
          rw [if_neg hq]
          exact ⟨_, rfl⟩
      | some t2 =>
          unfold GammaFactorMetric.construct
          dsimp only
          rw [if_neg (fun hc => hq hc.1)]
          exact ⟨_, rfl⟩
    · cases x with
      | none =>
          unfold GammaFactorMetric.construct
          dsimp only
          rw [if_neg hq]
          exact ⟨_, rfl⟩
      | some d2 =>
          unfold GammaFactorMetric.construct
          dsimp only
          rw [if_neg (fun hc => hq hc.2)]
          exact ⟨_, rfl⟩
  · unfold GammaFactorMetric.construct
    dsimp only
    rw [if_pos ⟨hd, ht⟩]

/-- C8 witness: a concrete construction with both quantities carrying the
time dimension succeeds. -/
theorem C8_gamma_construction_validation_witness :
    GammaFactorMetric.construct (some ⟨10, 1⟩) (some ⟨10, 1⟩) =
      Except.ok ⟨⟨10, 1⟩, ⟨10, 1⟩⟩ :=
  (C8_gamma_construction_validation ⟨10, 1⟩ ⟨10, 1⟩ rfl rfl).2.2

end B2MF
